import Mathlib

/-!
Verification of the release-workflow scripts `src/release.py` and
`src/create_new_release.py`.

The two scripts drive the same five-stage workflow: preflight cleanliness
check, minor version bump via `npm version minor`, tag remapping
(delete the npm tag `v{V}`, create `release/v{V}`), an interactive
yes/no confirmation loop, then either pushing branch and tag or rolling
the bump back.

The embedding has two layers:

* a trace layer: `mainRun` (from `release.py`, with its helper functions
  `bump_version`, `create_release_tag`, `confirm_release`, `push_release`)
  and `mainRun2` (from the monolithic `create_new_release.py`) map an
  environment of external-command results and operator inputs to the list
  of external commands the script issues plus the process exit code;
* a state layer: `applyCmd` / `runTrace` give each issued command its
  effect on a repository state (commits, tags, working files), modelled
  from the spec's description of the version-control commands, so that
  state-level properties (tag invariants, rollback being an inverse) can
  be proved about the very traces the scripts produce.
-/

namespace ReleaseWorkflow

/-- A semantic version `MAJOR.MINOR.PATCH` as stored in the `version`
field of `package.json`. -/
structure Version where
  major : Nat
  minor : Nat
  patch : Nat
deriving DecidableEq, Repr

/-- Modelled from the spec: the version arithmetic of the external
`npm version minor` bump tool, which is not part of the repository.
Glossary: "Bump: incrementing a semantic version's minor component,
resetting patch to zero per convention." -/
def npmBumpMinor (v : Version) : Version :=
  ⟨v.major, v.minor + 1, 0⟩

/-- Render a version as the dotted string stored in `package.json`. -/
def versionString (v : Version) : String :=
  toString v.major ++ "." ++ toString v.minor ++ "." ++ toString v.patch

/-- Python's `str.strip()`: remove leading and trailing whitespace.
Defined on the character list so that it evaluates by kernel
reduction. -/
def pyStrip (s : String) : String :=
  ⟨((s.data.dropWhile Char.isWhitespace).reverse.dropWhile Char.isWhitespace).reverse⟩

/-- Python's `str.strip().lower()`, the normalization both scripts apply
to operator input before comparing it with `yes` / `no`. -/
def pyStripLower (s : String) : String :=
  ⟨(pyStrip s).data.map Char.toLower⟩

/-- The tag `npm version` creates as a side effect (`v{version}`),
as computed by `npm_tag = f'v{new_version}'` in both scripts. -/
def nativeTagName (v : String) : String := "v" ++ v

/-- The workflow's release tag (`release/v{version}`), as computed by
`tag_name = f'release/v{version}'` in both scripts. -/
def releaseTagName (v : String) : String := "release/v" ++ v

/-- The argument list `release.py` passes to the external bump tool
(line 42): the increment level is fixed to `minor` and the commit
message template embeds the new version. -/
def bumpCommandArgs : List String :=
  ["npm", "version", "minor", "-m", "Bump version to %s"]

/-- One external command invocation, as issued through `subprocess.run`
by either script.  Read-only queries and mutating commands alike appear
in the trace. -/
inductive Cmd where
  | revParseBranch
  | statusPorcelain
  | npmVersionMinor
  | gitTagDelete (tag : String)
  | gitTagCreate (tag : String)
  | gitResetBack
  | gitRestore (file : String)
  | gitPushBranch
  | gitPushTag (tag : String)
deriving DecidableEq, Repr

/-- Results the external world returns to the script: the output of
`git status --porcelain`, the success of each fallible external command,
the version read back from `package.json` after the bump, and the finite
stream of operator inputs (its end models end-of-input at the prompt). -/
structure Env where
  branchQueryOk : Bool
  statusOutput : String
  bumpOk : Bool
  newVersion : String
  deleteNpmTagOk : Bool
  createTagOk : Bool
  resetOk : Bool
  deleteReleaseTagOk : Bool
  restoreManifestOk : Bool
  restoreLockfileOk : Bool
  pushBranchOk : Bool
  pushTagOk : Bool
  inputs : List String

/-- `bump_version` of `release.py`: runs `npm version minor` (exiting on
failure), re-reads the version from `package.json`, then deletes the
npm-created tag `v{new_version}` (exiting on failure).  Returns the
issued commands and, on success, the new version string. -/
def bump_version (env : Env) : List Cmd × Option String :=
  if env.bumpOk then
    ([Cmd.npmVersionMinor, Cmd.gitTagDelete (nativeTagName env.newVersion)],
      if env.deleteNpmTagOk then some env.newVersion else none)
  else ([Cmd.npmVersionMinor], none)

/-- `create_release_tag` of `release.py`: creates `release/v{version}`
(exiting on failure) and returns the tag name. -/
def create_release_tag (env : Env) (version : String) : List Cmd × Option String :=
  ([Cmd.gitTagCreate (releaseTagName version)],
    if env.createTagOk then some (releaseTagName version) else none)

/-- `confirm_release` of `release.py`, reading from the operator input
stream: each input is stripped and lowercased; `"yes"` accepts, `"no"`
rejects, anything else re-prompts.  `none` means the stream was
exhausted before a decision (Python's `input()` raises `EOFError`,
terminating the process with a non-zero status). -/
def confirm_release : List String → Option Bool
  | [] => none
  | r :: rest =>
    if pyStripLower r = "yes" then some true
    else if pyStripLower r = "no" then some false
    else confirm_release rest

/-- `push_release` of `release.py`: pushes the current branch, and only
if that succeeded pushes the release tag.  Returns the issued commands
and whether everything succeeded. -/
def push_release (env : Env) (tagName : String) : List Cmd × Bool :=
  if env.pushBranchOk then
    ([Cmd.gitPushBranch, Cmd.gitPushTag tagName], env.pushTagOk)
  else ([Cmd.gitPushBranch], false)

/-- The rollback block of `release.py` `main` (lines 136-143): reset the
bump commit, delete the release tag, restore `package.json` and
`package-lock.json`; each step exits the process on failure. -/
def rollback (env : Env) (tagName : String) : List Cmd × Bool :=
  if env.resetOk then
    if env.deleteReleaseTagOk then
      if env.restoreManifestOk then
        ([Cmd.gitResetBack, Cmd.gitTagDelete tagName,
          Cmd.gitRestore "package.json", Cmd.gitRestore "package-lock.json"],
          env.restoreLockfileOk)
      else
        ([Cmd.gitResetBack, Cmd.gitTagDelete tagName,
          Cmd.gitRestore "package.json"], false)
    else ([Cmd.gitResetBack, Cmd.gitTagDelete tagName], false)
  else ([Cmd.gitResetBack], false)

/-- `main` of `release.py`: branch query (exit code ignored), preflight
`git status --porcelain` check, bump, tag remap, confirmation, then push
on `yes`, rollback on `no`, and an `EOFError` crash (exit 1) if the
input stream ends inside the loop.  Returns the full command trace and
the process exit code. -/
def mainRun (env : Env) : List Cmd × Nat :=
  let pre : List Cmd := [Cmd.revParseBranch, Cmd.statusPorcelain]
  if pyStrip env.statusOutput = "" then
    match bump_version env with
    | (evs1, some v) =>
      match create_release_tag env v with
      | (evs2, some tagName) =>
        match confirm_release env.inputs with
        | some true =>
          (pre ++ evs1 ++ evs2 ++ (push_release env tagName).1,
            if (push_release env tagName).2 then 0 else 1)
        | some false =>
          (pre ++ evs1 ++ evs2 ++ (rollback env tagName).1,
            if (rollback env tagName).2 then 0 else 1)
        | none => (pre ++ evs1 ++ evs2, 1)
      | (evs2, none) => (pre ++ evs1 ++ evs2, 1)
    | (evs1, none) => (pre ++ evs1, 1)
  else (pre, 1)

/-- `main` of `create_new_release.py`: the same workflow written
monolithically, with `check=True` on every command (including the branch
query), so any failing command terminates the process with a non-zero
status via `CalledProcessError`. -/
def mainRun2 (env : Env) : List Cmd × Nat :=
  if env.branchQueryOk then
    if pyStrip env.statusOutput = "" then
      if env.bumpOk then
        if env.deleteNpmTagOk then
          if env.createTagOk then
            match confirm_release env.inputs with
            | some true =>
              if env.pushBranchOk then
                ([Cmd.revParseBranch, Cmd.statusPorcelain, Cmd.npmVersionMinor,
                  Cmd.gitTagDelete (nativeTagName env.newVersion),
                  Cmd.gitTagCreate (releaseTagName env.newVersion),
                  Cmd.gitPushBranch, Cmd.gitPushTag (releaseTagName env.newVersion)],
                  if env.pushTagOk then 0 else 1)
              else
                ([Cmd.revParseBranch, Cmd.statusPorcelain, Cmd.npmVersionMinor,
                  Cmd.gitTagDelete (nativeTagName env.newVersion),
                  Cmd.gitTagCreate (releaseTagName env.newVersion),
                  Cmd.gitPushBranch], 1)
            | some false =>
              if env.resetOk then
                if env.deleteReleaseTagOk then
                  if env.restoreManifestOk then
                    ([Cmd.revParseBranch, Cmd.statusPorcelain, Cmd.npmVersionMinor,
                      Cmd.gitTagDelete (nativeTagName env.newVersion),
                      Cmd.gitTagCreate (releaseTagName env.newVersion),
                      Cmd.gitResetBack,
                      Cmd.gitTagDelete (releaseTagName env.newVersion),
                      Cmd.gitRestore "package.json",
                      Cmd.gitRestore "package-lock.json"],
                      if env.restoreLockfileOk then 0 else 1)
                  else
                    ([Cmd.revParseBranch, Cmd.statusPorcelain, Cmd.npmVersionMinor,
                      Cmd.gitTagDelete (nativeTagName env.newVersion),
                      Cmd.gitTagCreate (releaseTagName env.newVersion),
                      Cmd.gitResetBack,
                      Cmd.gitTagDelete (releaseTagName env.newVersion),
                      Cmd.gitRestore "package.json"], 1)
                else
                  ([Cmd.revParseBranch, Cmd.statusPorcelain, Cmd.npmVersionMinor,
                    Cmd.gitTagDelete (nativeTagName env.newVersion),
                    Cmd.gitTagCreate (releaseTagName env.newVersion),
                    Cmd.gitResetBack,
                    Cmd.gitTagDelete (releaseTagName env.newVersion)], 1)
              else
                ([Cmd.revParseBranch, Cmd.statusPorcelain, Cmd.npmVersionMinor,
                  Cmd.gitTagDelete (nativeTagName env.newVersion),
                  Cmd.gitTagCreate (releaseTagName env.newVersion),
                  Cmd.gitResetBack], 1)
            | none =>
              ([Cmd.revParseBranch, Cmd.statusPorcelain, Cmd.npmVersionMinor,
                Cmd.gitTagDelete (nativeTagName env.newVersion),
                Cmd.gitTagCreate (releaseTagName env.newVersion)], 1)
          else
            ([Cmd.revParseBranch, Cmd.statusPorcelain, Cmd.npmVersionMinor,
              Cmd.gitTagDelete (nativeTagName env.newVersion),
              Cmd.gitTagCreate (releaseTagName env.newVersion)], 1)
        else
          ([Cmd.revParseBranch, Cmd.statusPorcelain, Cmd.npmVersionMinor,
            Cmd.gitTagDelete (nativeTagName env.newVersion)], 1)
      else ([Cmd.revParseBranch, Cmd.statusPorcelain, Cmd.npmVersionMinor], 1)
    else ([Cmd.revParseBranch, Cmd.statusPorcelain], 1)
  else ([Cmd.revParseBranch], 1)

/-- A commit: an identifier plus the committed contents of the two files
the workflow cares about (`package.json`'s `version` field and the
lockfile's recorded version). -/
structure Commit where
  id : Nat
  manifestVersion : Version
  lockfileVersion : Version
deriving DecidableEq, Repr

/-- The repository state the spec calls `RepositoryState`: the local
commit history of the current branch (head first), the working-tree
contents of manifest and lockfile, the local tag set (each tag names a
commit id), a counter for fresh commit ids, and the remote's view. -/
structure GitState where
  history : List Commit
  workManifest : Version
  workLockfile : Version
  tags : List (String × Nat)
  nextId : Nat
  remoteHistory : List Commit
  remoteTags : List (String × Nat)
deriving DecidableEq, Repr

/-- The names of the tags currently present locally. -/
def tagNames (s : GitState) : List String := s.tags.map Prod.fst

/-- Modelled from the spec: the external bump tool "produces a new
commit, a native tag `v{version}`, and an updated manifest as side
effects" (spec section 6), with the version arithmetic of
`npmBumpMinor`.  Tag creation fails if the native tag already exists. -/
def applyNpmVersionMinor (s : GitState) : Option GitState :=
  let newV := npmBumpMinor s.workManifest
  if nativeTagName (versionString newV) ∈ tagNames s then none
  else some { s with
    history := ⟨s.nextId, newV, newV⟩ :: s.history,
    workManifest := newV,
    workLockfile := newV,
    tags := (nativeTagName (versionString newV), s.nextId) :: s.tags,
    nextId := s.nextId + 1 }

/-- Modelled from the spec: `git tag -d` — "delete tag by name"
(spec section 6); fails when no tag of that name exists. -/
def applyTagDelete (s : GitState) (t : String) : Option GitState :=
  if t ∈ tagNames s then
    some { s with tags := s.tags.filter (fun p => p.1 != t) }
  else none

/-- Modelled from the spec: `git tag` — "create tag by name at current
position" (spec section 6); fails when a tag of that name already
exists or there is no commit to tag. -/
def applyTagCreate (s : GitState) (t : String) : Option GitState :=
  match s.history with
  | [] => none
  | c :: _ =>
    if t ∈ tagNames s then none
    else some { s with tags := (t, c.id) :: s.tags }

/-- Modelled from the spec: `git reset HEAD~1` — "move branch pointer
back one commit while preserving working-tree content" (spec section 6);
fails when the head commit has no parent. -/
def applyResetBack (s : GitState) : Option GitState :=
  match s.history with
  | _ :: c :: rest => some { s with history := c :: rest }
  | _ => none

/-- Modelled from the spec: `git restore <file>` — "restore a specific
file to its last committed content" (spec section 6), for the two files
the workflow restores. -/
def applyRestore (s : GitState) (f : String) : Option GitState :=
  match s.history with
  | [] => none
  | c :: _ =>
    if f = "package.json" then some { s with workManifest := c.manifestVersion }
    else if f = "package-lock.json" then some { s with workLockfile := c.lockfileVersion }
    else none

/-- Modelled from the spec: the effect of each external command on the
repository state.  The two queries are read-only; `git push` publishes
the branch history; `git push origin <tag>` publishes a named local tag
and fails when the tag does not exist locally. -/
def applyCmd (s : GitState) : Cmd → Option GitState
  | Cmd.revParseBranch => some s
  | Cmd.statusPorcelain => some s
  | Cmd.npmVersionMinor => applyNpmVersionMinor s
  | Cmd.gitTagDelete t => applyTagDelete s t
  | Cmd.gitTagCreate t => applyTagCreate s t
  | Cmd.gitResetBack => applyResetBack s
  | Cmd.gitRestore f => applyRestore s f
  | Cmd.gitPushBranch => some { s with remoteHistory := s.history }
  | Cmd.gitPushTag t =>
    if t ∈ tagNames s then
      some { s with remoteTags := s.tags.filter (fun p => p.1 == t) ++ s.remoteTags }
    else none

/-- Run a command trace against a repository state, stopping at the
first command whose effect fails. -/
def runTrace (s : GitState) : List Cmd → Option GitState
  | [] => some s
  | c :: cs =>
    match applyCmd s c with
    | some s2 => runTrace s2 cs
    | none => none

/-- The repository state right after a successful `npm version minor`
on `s`: one new commit, the native tag on it, manifest and lockfile
updated to the bumped version. -/
def bumpedState (s : GitState) : GitState :=
  { s with
    history := ⟨s.nextId, npmBumpMinor s.workManifest,
      npmBumpMinor s.workManifest⟩ :: s.history,
    workManifest := npmBumpMinor s.workManifest,
    workLockfile := npmBumpMinor s.workManifest,
    tags := (nativeTagName (versionString (npmBumpMinor s.workManifest)),
      s.nextId) :: s.tags,
    nextId := s.nextId + 1 }

/-- The repository state after the tag-remapping stage: the bumped state
with the native tag replaced by the release tag at the same commit. -/
def remappedState (s : GitState) : GitState :=
  { s with
    history := ⟨s.nextId, npmBumpMinor s.workManifest,
      npmBumpMinor s.workManifest⟩ :: s.history,
    workManifest := npmBumpMinor s.workManifest,
    workLockfile := npmBumpMinor s.workManifest,
    tags := (releaseTagName (versionString (npmBumpMinor s.workManifest)),
      s.nextId) :: s.tags,
    nextId := s.nextId + 1 }

/-- The two read-only queries every run issues first. -/
def preflightTrace : List Cmd := [Cmd.revParseBranch, Cmd.statusPorcelain]

/-- The command trace of a run that has completed stages 1-3 for the
manifest version `nv`: preflight queries, bump, native-tag deletion,
release-tag creation, in this order. -/
def stage3Trace (nv : String) : List Cmd :=
  [Cmd.revParseBranch, Cmd.statusPorcelain, Cmd.npmVersionMinor,
    Cmd.gitTagDelete (nativeTagName nv), Cmd.gitTagCreate (releaseTagName nv)]

/-- An environment in which every external command succeeds, the tree is
clean, the bumped version is `1.4.0` and the operator confirms:
the spec's nominal scenario. -/
def envAllOk : Env :=
  { branchQueryOk := true, statusOutput := "", bumpOk := true,
    newVersion := "1.4.0", deleteNpmTagOk := true, createTagOk := true,
    resetOk := true, deleteReleaseTagOk := true, restoreManifestOk := true,
    restoreLockfileOk := true, pushBranchOk := true, pushTagOk := true,
    inputs := ["yes"] }

/-- A concrete clean repository at committed version `1.3.0`:
the starting state of the spec's two scenarios. -/
def s130 : GitState :=
  { history := [⟨0, ⟨1, 3, 0⟩, ⟨1, 3, 0⟩⟩], workManifest := ⟨1, 3, 0⟩,
    workLockfile := ⟨1, 3, 0⟩, tags := [], nextId := 1,
    remoteHistory := [], remoteTags := [] }

/-- A concrete clean repository at committed version `1.3.5` (non-zero
patch component). -/
def s135 : GitState :=
  { history := [⟨0, ⟨1, 3, 5⟩, ⟨1, 3, 5⟩⟩], workManifest := ⟨1, 3, 5⟩,
    workLockfile := ⟨1, 3, 5⟩, tags := [], nextId := 1,
    remoteHistory := [], remoteTags := [] }

/-- The repository `s135` right after the bump: one new commit at
version `1.4.0` and the native tag `v1.4.0`. -/
def s135bumped : GitState :=
  { history := [⟨1, ⟨1, 4, 0⟩, ⟨1, 4, 0⟩⟩, ⟨0, ⟨1, 3, 5⟩, ⟨1, 3, 5⟩⟩],
    workManifest := ⟨1, 4, 0⟩, workLockfile := ⟨1, 4, 0⟩,
    tags := [("v1.4.0", 1)], nextId := 2,
    remoteHistory := [], remoteTags := [] }

/-- The repository `s130` right after the bump: one new commit at
version `1.4.0` and the native tag `v1.4.0`, the input state of the
tag-remapping stage. -/
def s130bumped : GitState :=
  { history := [⟨1, ⟨1, 4, 0⟩, ⟨1, 4, 0⟩⟩, ⟨0, ⟨1, 3, 0⟩, ⟨1, 3, 0⟩⟩],
    workManifest := ⟨1, 4, 0⟩, workLockfile := ⟨1, 4, 0⟩,
    tags := [("v1.4.0", 1)], nextId := 2,
    remoteHistory := [], remoteTags := [] }

lemma mainRun_dirty (env : Env) (h : ¬ pyStrip env.statusOutput = "") :
    mainRun env = (preflightTrace, 1) := by
  simp [mainRun, preflightTrace, h]

lemma mainRun_bumpFail (env : Env) (h1 : pyStrip env.statusOutput = "")
    (h2 : env.bumpOk = false) :
    mainRun env = (preflightTrace ++ [Cmd.npmVersionMinor], 1) := by
  simp [mainRun, bump_version, preflightTrace, h1, h2]

lemma mainRun_deleteFail (env : Env) (h1 : pyStrip env.statusOutput = "")
    (h2 : env.bumpOk = true) (h3 : env.deleteNpmTagOk = false) :
    mainRun env = (preflightTrace ++ [Cmd.npmVersionMinor,
      Cmd.gitTagDelete (nativeTagName env.newVersion)], 1) := by
  simp [mainRun, bump_version, preflightTrace, h1, h2, h3]

lemma mainRun_createFail (env : Env) (h1 : pyStrip env.statusOutput = "")
    (h2 : env.bumpOk = true) (h3 : env.deleteNpmTagOk = true)
    (h4 : env.createTagOk = false) :
    mainRun env = (stage3Trace env.newVersion, 1) := by
  simp [mainRun, bump_version, create_release_tag, stage3Trace, h1, h2, h3, h4]

lemma mainRun_eof (env : Env) (h1 : pyStrip env.statusOutput = "")
    (h2 : env.bumpOk = true) (h3 : env.deleteNpmTagOk = true)
    (h4 : env.createTagOk = true) (h5 : confirm_release env.inputs = none) :
    mainRun env = (stage3Trace env.newVersion, 1) := by
  simp [mainRun, bump_version, create_release_tag, stage3Trace, h1, h2, h3, h4, h5]

lemma mainRun_reject (env : Env) (h1 : pyStrip env.statusOutput = "")
    (h2 : env.bumpOk = true) (h3 : env.deleteNpmTagOk = true)
    (h4 : env.createTagOk = true)
    (h5 : confirm_release env.inputs = some false) :
    mainRun env =
      (stage3Trace env.newVersion ++ (rollback env (releaseTagName env.newVersion)).1,
        if (rollback env (releaseTagName env.newVersion)).2 then 0 else 1) := by
  simp [mainRun, bump_version, create_release_tag, stage3Trace, h1, h2, h3, h4, h5]

lemma mainRun_accept (env : Env) (h1 : pyStrip env.statusOutput = "")
    (h2 : env.bumpOk = true) (h3 : env.deleteNpmTagOk = true)
    (h4 : env.createTagOk = true)
    (h5 : confirm_release env.inputs = some true) :
    mainRun env =
      (stage3Trace env.newVersion ++ (push_release env (releaseTagName env.newVersion)).1,
        if (push_release env (releaseTagName env.newVersion)).2 then 0 else 1) := by
  simp [mainRun, bump_version, create_release_tag, stage3Trace, h1, h2, h3, h4, h5]

lemma mainRun2_branchFail (env : Env) (h : env.branchQueryOk = false) :
    mainRun2 env = ([Cmd.revParseBranch], 1) := by
  simp [mainRun2, h]

lemma mainRun2_dirty (env : Env) (h0 : env.branchQueryOk = true)
    (h : ¬ pyStrip env.statusOutput = "") :
    mainRun2 env = (preflightTrace, 1) := by
  simp [mainRun2, preflightTrace, h0, h]

lemma mainRun2_bumpFail (env : Env) (h0 : env.branchQueryOk = true)
    (h1 : pyStrip env.statusOutput = "") (h2 : env.bumpOk = false) :
    mainRun2 env = (preflightTrace ++ [Cmd.npmVersionMinor], 1) := by
  simp [mainRun2, preflightTrace, h0, h1, h2]

lemma mainRun2_deleteFail (env : Env) (h0 : env.branchQueryOk = true)
    (h1 : pyStrip env.statusOutput = "") (h2 : env.bumpOk = true)
    (h3 : env.deleteNpmTagOk = false) :
    mainRun2 env = (preflightTrace ++ [Cmd.npmVersionMinor,
      Cmd.gitTagDelete (nativeTagName env.newVersion)], 1) := by
  simp [mainRun2, preflightTrace, h0, h1, h2, h3]

lemma mainRun2_createFail (env : Env) (h0 : env.branchQueryOk = true)
    (h1 : pyStrip env.statusOutput = "") (h2 : env.bumpOk = true)
    (h3 : env.deleteNpmTagOk = true) (h4 : env.createTagOk = false) :
    mainRun2 env = (stage3Trace env.newVersion, 1) := by
  simp [mainRun2, stage3Trace, h0, h1, h2, h3, h4]

lemma mainRun2_eof (env : Env) (h0 : env.branchQueryOk = true)
    (h1 : pyStrip env.statusOutput = "") (h2 : env.bumpOk = true)
    (h3 : env.deleteNpmTagOk = true) (h4 : env.createTagOk = true)
    (h5 : confirm_release env.inputs = none) :
    mainRun2 env = (stage3Trace env.newVersion, 1) := by
  simp [mainRun2, stage3Trace, h0, h1, h2, h3, h4, h5]

lemma mainRun2_reject (env : Env) (h0 : env.branchQueryOk = true)
    (h1 : pyStrip env.statusOutput = "") (h2 : env.bumpOk = true)
    (h3 : env.deleteNpmTagOk = true) (h4 : env.createTagOk = true)
    (h5 : confirm_release env.inputs = some false) :
    mainRun2 env =
      (stage3Trace env.newVersion ++ (rollback env (releaseTagName env.newVersion)).1,
        if (rollback env (releaseTagName env.newVersion)).2 then 0 else 1) := by
  rcases env with ⟨bq, so, bo, nv, d1, c1, ro, d2, rm, rl, pb, pt, inp⟩
  simp only [] at h0 h1 h2 h3 h4 h5
  cases ro <;> cases d2 <;> cases rm <;> cases rl <;>
    simp [mainRun2, rollback, stage3Trace, h0, h1, h2, h3, h4, h5]

lemma mainRun2_accept (env : Env) (h0 : env.branchQueryOk = true)
    (h1 : pyStrip env.statusOutput = "") (h2 : env.bumpOk = true)
    (h3 : env.deleteNpmTagOk = true) (h4 : env.createTagOk = true)
    (h5 : confirm_release env.inputs = some true) :
    mainRun2 env =
      (stage3Trace env.newVersion ++ (push_release env (releaseTagName env.newVersion)).1,
        if (push_release env (releaseTagName env.newVersion)).2 then 0 else 1) := by
  rcases env with ⟨bq, so, bo, nv, d1, c1, ro, d2, rm, rl, pb, pt, inp⟩
  simp only [] at h0 h1 h2 h3 h4 h5
  cases pb <;> cases pt <;>
    simp [mainRun2, push_release, stage3Trace, h0, h1, h2, h3, h4, h5]

lemma nativeTagName_ne_releaseTagName (v : String) :
    nativeTagName v ≠ releaseTagName v := by
  intro h
  have h2 := congrArg String.length h
  rw [nativeTagName, releaseTagName, String.length_append, String.length_append] at h2
  have hv : ("v" : String).length = 1 := rfl
  have hrel : ("release/v" : String).length = 9 := rfl
  omega

lemma filter_keep_of_notName (l : List (String × Nat)) (t : String)
    (h : t ∉ l.map Prod.fst) : l.filter (fun p => p.1 != t) = l := by
  induction l with
  | nil => rfl
  | cons p l ih =>
    simp only [List.map_cons, List.mem_cons] at h
    push_neg at h
    rw [List.filter_cons]
    have : (p.1 != t) = true := by simp [bne_iff_ne]; exact fun he => h.1 he.symm
    rw [if_pos this, ih h.2]

lemma notName_filter (l : List (String × Nat)) (t : String) :
    t ∉ (l.filter (fun p => p.1 != t)).map Prod.fst := by
  intro h
  rcases List.mem_map.mp h with ⟨p, hp, hpt⟩
  rcases List.mem_filter.mp hp with ⟨_, hpred⟩
  rw [hpt] at hpred
  simp at hpred

lemma mem_names_of_mem_filter (l : List (String × Nat)) (t x : String)
    (h : x ∈ (l.filter (fun p => p.1 != t)).map Prod.fst) :
    x ∈ l.map Prod.fst := by
  rcases List.mem_map.mp h with ⟨p, hp, hpt⟩
  exact hpt ▸ List.mem_map_of_mem Prod.fst (List.mem_filter.mp hp).1

lemma confirm_release_yes_token (l : List String)
    (h : confirm_release l = some true) :
    ∃ r ∈ l, pyStripLower r = "yes" := by
  induction l with
  | nil => simp [confirm_release] at h
  | cons r rest ih =>
    rw [confirm_release] at h
    by_cases hy : pyStripLower r = "yes"
    · exact ⟨r, List.mem_cons_self r rest, hy⟩
    · rw [if_neg hy] at h
      by_cases hn : pyStripLower r = "no"
      · rw [if_pos hn] at h; cases h
      · rw [if_neg hn] at h
        rcases ih h with ⟨x, hx, hxy⟩
        exact ⟨x, List.mem_cons_of_mem r hx, hxy⟩

lemma confirm_release_append_invalid (l rest : List String)
    (h : ∀ r ∈ l, pyStripLower r ≠ "yes" ∧ pyStripLower r ≠ "no") :
    confirm_release (l ++ rest) = confirm_release rest := by
  induction l with
  | nil => rfl
  | cons r l ih =>
    have hr := h r (List.mem_cons_self r l)
    rw [List.cons_append, confirm_release, if_neg hr.1, if_neg hr.2]
    exact ih fun x hx => h x (List.mem_cons_of_mem r hx)

lemma confirm_release_invalid_none (l : List String)
    (h : ∀ r ∈ l, pyStripLower r ≠ "yes" ∧ pyStripLower r ≠ "no") :
    confirm_release l = none := by
  have := confirm_release_append_invalid l [] h
  rwa [List.append_nil] at this

lemma runTrace_append (s : GitState) (l1 l2 : List Cmd) :
    runTrace s (l1 ++ l2) =
      match runTrace s l1 with
      | some s2 => runTrace s2 l2
      | none => none := by
  induction l1 generalizing s with
  | nil => rfl
  | cons c l1 ih =>
    rw [List.cons_append, runTrace, runTrace]
    cases applyCmd s c with
    | none => rfl
    | some s2 => exact ih s2

lemma rollback_no_push (env : Env) (tn : String) :
    Cmd.gitPushBranch ∉ (rollback env tn).1 ∧
      ∀ t, Cmd.gitPushTag t ∉ (rollback env tn).1 := by
  unfold rollback
  split_ifs <;> simp

lemma push_release_shape (env : Env) (tn : String) :
    (env.pushBranchOk = true ∧
        (push_release env tn).1 = [Cmd.gitPushBranch, Cmd.gitPushTag tn]) ∨
      (env.pushBranchOk = false ∧ (push_release env tn).1 = [Cmd.gitPushBranch]) := by
  unfold push_release
  cases h : env.pushBranchOk <;> simp

lemma rollback_allOk (env : Env) (tn : String) (h1 : env.resetOk = true)
    (h2 : env.deleteReleaseTagOk = true) (h3 : env.restoreManifestOk = true)
    (h4 : env.restoreLockfileOk = true) :
    rollback env tn = ([Cmd.gitResetBack, Cmd.gitTagDelete tn,
      Cmd.gitRestore "package.json", Cmd.gitRestore "package-lock.json"], true) := by
  simp [rollback, h1, h2, h3, h4]

lemma runTrace_stage3 (s : GitState)
    (hn : nativeTagName (versionString (npmBumpMinor s.workManifest)) ∉ tagNames s)
    (hr : releaseTagName (versionString (npmBumpMinor s.workManifest)) ∉ tagNames s) :
    runTrace s (stage3Trace (versionString (npmBumpMinor s.workManifest))) =
      some (remappedState s) := by
  have hn' : nativeTagName (versionString (npmBumpMinor s.workManifest)) ∉
      s.tags.map Prod.fst := hn
  have hr' : releaseTagName (versionString (npmBumpMinor s.workManifest)) ∉
      s.tags.map Prod.fst := hr
  simp only [stage3Trace, runTrace, applyCmd, applyNpmVersionMinor,
    applyTagDelete, applyTagCreate, tagNames]
  rw [if_neg hn']
  simp only [List.map_cons, List.mem_cons, List.filter_cons]
  simp only [bne_self_eq_false, if_pos (Or.inl rfl), if_false,
    Bool.false_eq_true, filter_keep_of_notName s.tags _ hn']
  simp [remappedState, hr']

lemma runTrace_rollbackTrace (s : GitState) (newC c : Commit)
    (rest : List Commit) (t : String)
    (hh : s.history = newC :: c :: rest)
    (ht : t ∈ tagNames s) :
    runTrace s [Cmd.gitResetBack, Cmd.gitTagDelete t,
        Cmd.gitRestore "package.json", Cmd.gitRestore "package-lock.json"] =
      some { s with
        history := c :: rest,
        tags := s.tags.filter (fun p => p.1 != t),
        workManifest := c.manifestVersion,
        workLockfile := c.lockfileVersion } := by
  have ht' : t ∈ s.tags.map Prod.fst := ht
  simp only [runTrace, applyCmd, applyResetBack, hh]
  simp only [applyTagDelete, tagNames]
  rw [if_pos ht']
  simp only [applyRestore]
  rfl

lemma rollback_starts_reset (env : Env) (tn : String) :
    Cmd.gitResetBack ∈ (rollback env tn).1 := by
  unfold rollback
  split_ifs <;> simp

lemma push_mem_mainRun_confirm (env : Env)
    (h : Cmd.gitPushBranch ∈ (mainRun env).1 ∨
      ∃ t, Cmd.gitPushTag t ∈ (mainRun env).1) :
    confirm_release env.inputs = some true := by
  by_cases h1 : pyStrip env.statusOutput = ""
  · cases h2 : env.bumpOk with
    | false => simp [mainRun_bumpFail env h1 h2, preflightTrace] at h
    | true =>
      cases h3 : env.deleteNpmTagOk with
      | false => simp [mainRun_deleteFail env h1 h2 h3, preflightTrace] at h
      | true =>
        cases h4 : env.createTagOk with
        | false => simp [mainRun_createFail env h1 h2 h3 h4, stage3Trace] at h
        | true =>
          rcases h5 : confirm_release env.inputs with _ | b
          · simp [mainRun_eof env h1 h2 h3 h4 h5, stage3Trace] at h
          · cases b with
            | false =>
              have hnp := rollback_no_push env (releaseTagName env.newVersion)
              simp [mainRun_reject env h1 h2 h3 h4 h5, stage3Trace,
                hnp.1, hnp.2] at h
            | true => rfl
  · simp [mainRun_dirty env h1, preflightTrace] at h

lemma push_mem_mainRun2_confirm (env : Env)
    (h : Cmd.gitPushBranch ∈ (mainRun2 env).1 ∨
      ∃ t, Cmd.gitPushTag t ∈ (mainRun2 env).1) :
    confirm_release env.inputs = some true := by
  cases h0 : env.branchQueryOk with
  | false => simp [mainRun2_branchFail env h0] at h
  | true =>
    by_cases h1 : pyStrip env.statusOutput = ""
    · cases h2 : env.bumpOk with
      | false => simp [mainRun2_bumpFail env h0 h1 h2, preflightTrace] at h
      | true =>
        cases h3 : env.deleteNpmTagOk with
        | false => simp [mainRun2_deleteFail env h0 h1 h2 h3, preflightTrace] at h
        | true =>
          cases h4 : env.createTagOk with
          | false => simp [mainRun2_createFail env h0 h1 h2 h3 h4, stage3Trace] at h
          | true =>
            rcases h5 : confirm_release env.inputs with _ | b
            · simp [mainRun2_eof env h0 h1 h2 h3 h4 h5, stage3Trace] at h
            · cases b with
              | false =>
                have hnp := rollback_no_push env (releaseTagName env.newVersion)
                simp [mainRun2_reject env h0 h1 h2 h3 h4 h5, stage3Trace,
                  hnp.1, hnp.2] at h
              | true => rfl
    · simp [mainRun2_dirty env h0 h1, preflightTrace] at h

/-- C1: no push operation (neither the branch push nor the tag push) is
issued before the operator has entered an affirmative confirmation
token: in either script, any run whose trace contains a push command is
a run in which the confirmation loop returned the affirmative answer,
which requires an input normalizing to `yes` in the operator stream. -/
theorem claim1_no_push_before_confirmation (env : Env) :
    ((Cmd.gitPushBranch ∈ (mainRun env).1 ∨
        ∃ t, Cmd.gitPushTag t ∈ (mainRun env).1) →
      confirm_release env.inputs = some true ∧
        ∃ r ∈ env.inputs, pyStripLower r = "yes") ∧
    ((Cmd.gitPushBranch ∈ (mainRun2 env).1 ∨
        ∃ t, Cmd.gitPushTag t ∈ (mainRun2 env).1) →
      confirm_release env.inputs = some true ∧
        ∃ r ∈ env.inputs, pyStripLower r = "yes") := by
  constructor
  · intro h
    have hc := push_mem_mainRun_confirm env h
    exact ⟨hc, confirm_release_yes_token env.inputs hc⟩
  · intro h
    have hc := push_mem_mainRun2_confirm env h
    exact ⟨hc, confirm_release_yes_token env.inputs hc⟩

theorem claim1_witness :
    (Cmd.gitPushBranch ∈ (mainRun envAllOk).1 ∨
        ∃ t, Cmd.gitPushTag t ∈ (mainRun envAllOk).1) ∧
      confirm_release envAllOk.inputs = some true ∧
      ∃ r ∈ envAllOk.inputs, pyStripLower r = "yes" :=
  ⟨Or.inl (by decide),
    (claim1_no_push_before_confirmation envAllOk).1 (Or.inl (by decide))⟩

/-- C2: if the working tree is dirty (non-empty `git status --porcelain`
output), both scripts exit with status 1 having issued only the two
read-only queries — no bump, no tag operation, no push — and those two
queries leave any repository state unchanged. -/
theorem claim2_dirty_tree_halts (env : Env) (s : GitState)
    (h : pyStrip env.statusOutput ≠ "") :
    mainRun env = (preflightTrace, 1) ∧
      (env.branchQueryOk = true → mainRun2 env = (preflightTrace, 1)) ∧
      runTrace s preflightTrace = some s :=
  ⟨mainRun_dirty env h, fun h0 => mainRun2_dirty env h0 h, rfl⟩

theorem claim2_witness :
    pyStrip ({ envAllOk with statusOutput := " M package.json" } : Env).statusOutput ≠ "" ∧
      mainRun { envAllOk with statusOutput := " M package.json" } = (preflightTrace, 1) ∧
      (({ envAllOk with statusOutput := " M package.json" } : Env).branchQueryOk = true →
        mainRun2 { envAllOk with statusOutput := " M package.json" } = (preflightTrace, 1)) ∧
      runTrace s130 preflightTrace = some s130 :=
  ⟨by decide,
    claim2_dirty_tree_halts { envAllOk with statusOutput := " M package.json" } s130 (by decide)⟩

/-- C8: if the external bump tool exits with a non-zero status, both
scripts terminate with exit status 1 and issue no further external
command after the failed bump invocation: no tag deletion or creation,
no reset, no restore, no push. -/
theorem claim8_bump_failure_terminal (env : Env)
    (h1 : pyStrip env.statusOutput = "") (h2 : env.bumpOk = false) :
    mainRun env = (preflightTrace ++ [Cmd.npmVersionMinor], 1) ∧
      (env.branchQueryOk = true →
        mainRun2 env = (preflightTrace ++ [Cmd.npmVersionMinor], 1)) :=
  ⟨mainRun_bumpFail env h1 h2, fun h0 => mainRun2_bumpFail env h0 h1 h2⟩

theorem claim8_witness :
    pyStrip ({ envAllOk with bumpOk := false } : Env).statusOutput = "" ∧
      ({ envAllOk with bumpOk := false } : Env).bumpOk = false ∧
      mainRun { envAllOk with bumpOk := false } =
        (preflightTrace ++ [Cmd.npmVersionMinor], 1) ∧
      (({ envAllOk with bumpOk := false } : Env).branchQueryOk = true →
        mainRun2 { envAllOk with bumpOk := false } =
          (preflightTrace ++ [Cmd.npmVersionMinor], 1)) :=
  ⟨rfl, rfl,
    claim8_bump_failure_terminal { envAllOk with bumpOk := false } rfl rfl⟩

lemma pushTag_mem_mainRun (env : Env) (t : String)
    (h : Cmd.gitPushTag t ∈ (mainRun env).1) :
    env.pushBranchOk = true ∧ t = releaseTagName env.newVersion ∧
      confirm_release env.inputs = some true ∧
      mainRun env = (stage3Trace env.newVersion ++
        [Cmd.gitPushBranch, Cmd.gitPushTag (releaseTagName env.newVersion)],
        if env.pushTagOk then 0 else 1) := by
  by_cases h1 : pyStrip env.statusOutput = ""
  · cases h2 : env.bumpOk with
    | false => simp [mainRun_bumpFail env h1 h2, preflightTrace] at h
    | true =>
      cases h3 : env.deleteNpmTagOk with
      | false => simp [mainRun_deleteFail env h1 h2 h3, preflightTrace] at h
      | true =>
        cases h4 : env.createTagOk with
        | false => simp [mainRun_createFail env h1 h2 h3 h4, stage3Trace] at h
        | true =>
          rcases h5 : confirm_release env.inputs with _ | b
          · simp [mainRun_eof env h1 h2 h3 h4 h5, stage3Trace] at h
          · cases b with
            | false =>
              have hnp := rollback_no_push env (releaseTagName env.newVersion)
              simp [mainRun_reject env h1 h2 h3 h4 h5, stage3Trace, hnp.2] at h
            | true =>
              cases hp : env.pushBranchOk with
              | false =>
                simp [mainRun_accept env h1 h2 h3 h4 h5, stage3Trace,
                  push_release, hp] at h
              | true =>
                have ht : t = releaseTagName env.newVersion := by
                  have hh := h
                  simp [mainRun_accept env h1 h2 h3 h4 h5, stage3Trace,
                    push_release, hp] at hh
                  exact hh
                refine ⟨rfl, ht, rfl, ?_⟩
                rw [mainRun_accept env h1 h2 h3 h4 h5]
                simp [push_release, hp]
  · simp [mainRun_dirty env h1, preflightTrace] at h

lemma pushTag_mem_mainRun2 (env : Env) (t : String)
    (h : Cmd.gitPushTag t ∈ (mainRun2 env).1) :
    env.pushBranchOk = true := by
  cases h0 : env.branchQueryOk with
  | false => simp [mainRun2_branchFail env h0] at h
  | true =>
    by_cases h1 : pyStrip env.statusOutput = ""
    · cases h2 : env.bumpOk with
      | false => simp [mainRun2_bumpFail env h0 h1 h2, preflightTrace] at h
      | true =>
        cases h3 : env.deleteNpmTagOk with
        | false => simp [mainRun2_deleteFail env h0 h1 h2 h3, preflightTrace] at h
        | true =>
          cases h4 : env.createTagOk with
          | false => simp [mainRun2_createFail env h0 h1 h2 h3 h4, stage3Trace] at h
          | true =>
            rcases h5 : confirm_release env.inputs with _ | b
            · simp [mainRun2_eof env h0 h1 h2 h3 h4 h5, stage3Trace] at h
            · cases b with
              | false =>
                have hnp := rollback_no_push env (releaseTagName env.newVersion)
                simp [mainRun2_reject env h0 h1 h2 h3 h4 h5, stage3Trace, hnp.2] at h
              | true =>
                cases hp : env.pushBranchOk with
                | false =>
                  simp [mainRun2_accept env h0 h1 h2 h3 h4 h5, stage3Trace,
                    push_release, hp] at h
                | true => rfl
    · simp [mainRun2_dirty env h0 h1, preflightTrace] at h

/-- C5: the Publisher pushes the branch before the tag, and if the
branch push fails no tag push is ever invoked: in either script, a run
with a failed branch push contains zero tag-push commands; every
tag-push occurrence in a trace is preceded by a branch push; and a run
that reaches the Publisher with a failing branch push ends with exit
status 1 right after the branch push. -/
theorem claim5_tag_push_requires_branch_push (env : Env) :
    (env.pushBranchOk = false →
      (∀ t, Cmd.gitPushTag t ∉ (mainRun env).1) ∧
        ∀ t, Cmd.gitPushTag t ∉ (mainRun2 env).1) ∧
      (∀ t, Cmd.gitPushTag t ∈ (mainRun env).1 →
        ∃ l1 l2, (mainRun env).1 = l1 ++ Cmd.gitPushBranch :: l2 ∧
          Cmd.gitPushTag t ∈ l2) ∧
      (pyStrip env.statusOutput = "" → env.bumpOk = true →
        env.deleteNpmTagOk = true → env.createTagOk = true →
        confirm_release env.inputs = some true → env.pushBranchOk = false →
        mainRun env = (stage3Trace env.newVersion ++ [Cmd.gitPushBranch], 1)) := by
  refine ⟨fun hp => ⟨fun t h => ?_, fun t h => ?_⟩, fun t h => ?_, ?_⟩
  · rw [(pushTag_mem_mainRun env t h).1] at hp
    cases hp
  · rw [pushTag_mem_mainRun2 env t h] at hp
    cases hp
  · obtain ⟨hp, ht, h5, heq⟩ := pushTag_mem_mainRun env t h
    refine ⟨stage3Trace env.newVersion,
      [Cmd.gitPushTag (releaseTagName env.newVersion)], by rw [heq], ?_⟩
    rw [ht]
    simp
  · intro h1 h2 h3 h4 h5 hp
    rw [mainRun_accept env h1 h2 h3 h4 h5]
    simp [push_release, hp]

theorem claim5_witness :
    Cmd.gitPushTag "release/v1.4.0" ∉
        (mainRun { envAllOk with pushBranchOk := false }).1 ∧
      ∃ l1 l2, (mainRun envAllOk).1 = l1 ++ Cmd.gitPushBranch :: l2 ∧
        Cmd.gitPushTag "release/v1.4.0" ∈ l2 :=
  ⟨((claim5_tag_push_requires_branch_push
      { envAllOk with pushBranchOk := false }).1 rfl).1 "release/v1.4.0",
    (claim5_tag_push_requires_branch_push envAllOk).2.1 "release/v1.4.0" (by decide)⟩

lemma mainRun_inputs_congr (env : Env) (i1 i2 : List String)
    (h : confirm_release i1 = confirm_release i2) :
    mainRun { env with inputs := i1 } = mainRun { env with inputs := i2 } := by
  rcases env with ⟨bq, so, bo, nv, d1, c1, ro, d2, rm, rl, pb, pt, inp⟩
  simp only [mainRun, bump_version, create_release_tag, push_release, rollback]
  rw [h]

lemma mainRun2_inputs_congr (env : Env) (i1 i2 : List String)
    (h : confirm_release i1 = confirm_release i2) :
    mainRun2 { env with inputs := i1 } = mainRun2 { env with inputs := i2 } := by
  rcases env with ⟨bq, so, bo, nv, d1, c1, ro, d2, rm, rl, pb, pt, inp⟩
  simp only [mainRun2]
  rw [h]

/-- C6: operator inputs that are neither `yes` nor `no` (after stripping
and lowercasing) only re-prompt: a stream of such inputs never produces
a decision, and prefixing any input stream with them changes neither
script's command trace nor its exit code — no external command is added
and the repository state is untouched. -/
theorem claim6_invalid_input_no_side_effects (l rest : List String) (env : Env)
    (h : ∀ r ∈ l, pyStripLower r ≠ "yes" ∧ pyStripLower r ≠ "no") :
    confirm_release l = none ∧
      confirm_release (l ++ rest) = confirm_release rest ∧
      mainRun { env with inputs := l ++ rest } =
        mainRun { env with inputs := rest } ∧
      mainRun2 { env with inputs := l ++ rest } =
        mainRun2 { env with inputs := rest } := by
  have hc := confirm_release_append_invalid l rest h
  exact ⟨confirm_release_invalid_none l h, hc,
    mainRun_inputs_congr env (l ++ rest) rest hc,
    mainRun2_inputs_congr env (l ++ rest) rest hc⟩

theorem claim6_witness :
    (∀ r ∈ (["maybe", " OK "] : List String),
        pyStripLower r ≠ "yes" ∧ pyStripLower r ≠ "no") ∧
      confirm_release ["maybe", " OK "] = none ∧
      confirm_release (["maybe", " OK "] ++ ["yes"]) = confirm_release ["yes"] ∧
      mainRun { envAllOk with inputs := ["maybe", " OK "] ++ ["yes"] } =
        mainRun { envAllOk with inputs := ["yes"] } ∧
      mainRun2 { envAllOk with inputs := ["maybe", " OK "] ++ ["yes"] } =
        mainRun2 { envAllOk with inputs := ["yes"] } :=
  ⟨by decide,
    claim6_invalid_input_no_side_effects ["maybe", " OK "] ["yes"] envAllOk (by decide)⟩

/-- C10: the Confirmation Gate strips and lowercases each input before
comparison: any input normalizing to `yes` is accepted as affirmative
(and, in a run that reached the gate, leads to the branch push), and any
input normalizing to `no` is accepted as negative (and leads to the
rollback's reset command). -/
theorem claim10_input_normalization (r : String) (rest : List String) (env : Env) :
    (pyStripLower r = "yes" → confirm_release (r :: rest) = some true) ∧
      (pyStripLower r = "no" → confirm_release (r :: rest) = some false) ∧
      (env.inputs = r :: rest → pyStrip env.statusOutput = "" →
        env.bumpOk = true → env.deleteNpmTagOk = true → env.createTagOk = true →
        (pyStripLower r = "yes" → Cmd.gitPushBranch ∈ (mainRun env).1) ∧
          (pyStripLower r = "no" → Cmd.gitResetBack ∈ (mainRun env).1)) := by
  refine ⟨fun hy => ?_, fun hn => ?_,
    fun hi h1 h2 h3 h4 => ⟨fun hy => ?_, fun hn => ?_⟩⟩
  · rw [confirm_release, if_pos hy]
  · rw [confirm_release, if_neg (by rw [hn]; decide), if_pos hn]
  · have h5 : confirm_release env.inputs = some true := by
      rw [hi, confirm_release, if_pos hy]
    rw [mainRun_accept env h1 h2 h3 h4 h5]
    rcases push_release_shape env (releaseTagName env.newVersion) with ⟨_, hs⟩ | ⟨_, hs⟩ <;>
      simp [hs]
  · have h5 : confirm_release env.inputs = some false := by
      rw [hi, confirm_release, if_neg (by rw [hn]; decide), if_pos hn]
    rw [mainRun_reject env h1 h2 h3 h4 h5]
    exact List.mem_append_right _ (rollback_starts_reset env (releaseTagName env.newVersion))

theorem claim10_witness :
    confirm_release [" YES ", "x"] = some true ∧
      confirm_release [" No "] = some false ∧
      Cmd.gitPushBranch ∈ (mainRun { envAllOk with inputs := [" YES ", "x"] }).1 ∧
      Cmd.gitResetBack ∈ (mainRun { envAllOk with inputs := [" No "] }).1 :=
  ⟨(claim10_input_normalization " YES " ["x"] envAllOk).1 (by decide),
    (claim10_input_normalization " No " [] envAllOk).2.1 (by decide),
    ((claim10_input_normalization " YES " ["x"]
        { envAllOk with inputs := [" YES ", "x"] }).2.2 rfl rfl rfl rfl rfl).1 (by decide),
    ((claim10_input_normalization " No " []
        { envAllOk with inputs := [" No "] }).2.2 rfl rfl rfl rfl rfl).2 (by decide)⟩

/-- C3: the Tag Remapper deletes the native tag `v{v}` before creating
the release tag `release/v{v}` at the same commit: from any state
carrying the native tag at the head commit and no release tag, the
deletion succeeds and removes the native tag, the creation then succeeds
and installs the release tag at the same commit id, and at no
intermediate or final point do both tags exist simultaneously; moreover
in every run of either script that completes stage 3 the trace begins
with the deletion strictly before the creation. -/
theorem claim3_tag_remap_invariant :
    (∀ (s : GitState) (c : Commit) (rest : List Commit) (v : String),
      s.history = c :: rest → (nativeTagName v, c.id) ∈ s.tags →
      releaseTagName v ∉ tagNames s →
      ∃ s1 s2,
        applyTagDelete s (nativeTagName v) = some s1 ∧
        applyTagCreate s1 (releaseTagName v) = some s2 ∧
        nativeTagName v ∉ tagNames s1 ∧
        ¬(nativeTagName v ∈ tagNames s1 ∧ releaseTagName v ∈ tagNames s1) ∧
        (releaseTagName v, c.id) ∈ s2.tags ∧
        nativeTagName v ∉ tagNames s2 ∧
        ¬(nativeTagName v ∈ tagNames s2 ∧ releaseTagName v ∈ tagNames s2)) ∧
    (∀ env : Env, pyStrip env.statusOutput = "" → env.bumpOk = true →
      env.deleteNpmTagOk = true → env.createTagOk = true →
      (∃ l2, (mainRun env).1 = stage3Trace env.newVersion ++ l2) ∧
        (env.branchQueryOk = true →
          ∃ l3, (mainRun2 env).1 = stage3Trace env.newVersion ++ l3)) := by
  constructor
  · intro s c rest v hh hm hr
    have htn : nativeTagName v ∈ tagNames s := List.mem_map_of_mem Prod.fst hm
    have h1 : nativeTagName v ∉
        tagNames { s with tags := s.tags.filter (fun p => p.1 != nativeTagName v) } :=
      notName_filter s.tags (nativeTagName v)
    have hrel1 : releaseTagName v ∉
        tagNames { s with tags := s.tags.filter (fun p => p.1 != nativeTagName v) } :=
      fun hx => hr (mem_names_of_mem_filter s.tags (nativeTagName v) _ hx)
    have hn2 : nativeTagName v ∉
        tagNames { s with tags := (releaseTagName v, c.id) :: s.tags.filter (fun p => p.1 != nativeTagName v) } := by
      simp only [tagNames, List.map_cons, List.mem_cons]
      rintro (he | hx)
      · exact nativeTagName_ne_releaseTagName v he
      · exact h1 hx
    refine ⟨{ s with tags := s.tags.filter (fun p => p.1 != nativeTagName v) },
      { s with tags := (releaseTagName v, c.id) :: s.tags.filter (fun p => p.1 != nativeTagName v) },
      ?_, ?_, h1, fun hx => absurd hx.1 h1, List.mem_cons_self _ _,
      hn2, fun hx => absurd hx.1 hn2⟩
    · rw [applyTagDelete, if_pos htn]
    · simp only [applyTagCreate, hh]
      exact if_neg fun hx => hr (mem_names_of_mem_filter s.tags (nativeTagName v) _ hx)
  · intro env h1 h2 h3 h4
    constructor
    · rcases h5 : confirm_release env.inputs with _ | b
      · exact ⟨[], by rw [mainRun_eof env h1 h2 h3 h4 h5]; simp⟩
      · cases b with
        | false =>
          exact ⟨(rollback env (releaseTagName env.newVersion)).1,
            by rw [mainRun_reject env h1 h2 h3 h4 h5]⟩
        | true =>
          exact ⟨(push_release env (releaseTagName env.newVersion)).1,
            by rw [mainRun_accept env h1 h2 h3 h4 h5]⟩
    · intro h0
      rcases h5 : confirm_release env.inputs with _ | b
      · exact ⟨[], by rw [mainRun2_eof env h0 h1 h2 h3 h4 h5]; simp⟩
      · cases b with
        | false =>
          exact ⟨(rollback env (releaseTagName env.newVersion)).1,
            by rw [mainRun2_reject env h0 h1 h2 h3 h4 h5]⟩
        | true =>
          exact ⟨(push_release env (releaseTagName env.newVersion)).1,
            by rw [mainRun2_accept env h0 h1 h2 h3 h4 h5]⟩

theorem claim3_witness :
    (s130bumped.history = ⟨1, ⟨1, 4, 0⟩, ⟨1, 4, 0⟩⟩ ::
        [⟨0, ⟨1, 3, 0⟩, ⟨1, 3, 0⟩⟩] ∧
      (nativeTagName "1.4.0", (1 : Nat)) ∈ s130bumped.tags ∧
      releaseTagName "1.4.0" ∉ tagNames s130bumped) ∧
      (∃ s1 s2,
        applyTagDelete s130bumped (nativeTagName "1.4.0") = some s1 ∧
        applyTagCreate s1 (releaseTagName "1.4.0") = some s2 ∧
        nativeTagName "1.4.0" ∉ tagNames s1 ∧
        ¬(nativeTagName "1.4.0" ∈ tagNames s1 ∧
            releaseTagName "1.4.0" ∈ tagNames s1) ∧
        (releaseTagName "1.4.0", (1 : Nat)) ∈ s2.tags ∧
        nativeTagName "1.4.0" ∉ tagNames s2 ∧
        ¬(nativeTagName "1.4.0" ∈ tagNames s2 ∧
            releaseTagName "1.4.0" ∈ tagNames s2)) ∧
      ∃ l2, (mainRun envAllOk).1 = stage3Trace envAllOk.newVersion ++ l2 :=
  ⟨⟨rfl, by decide, by decide⟩,
    claim3_tag_remap_invariant.1 s130bumped ⟨1, ⟨1, 4, 0⟩, ⟨1, 4, 0⟩⟩
      [⟨0, ⟨1, 3, 0⟩, ⟨1, 3, 0⟩⟩] "1.4.0" rfl (by decide) (by decide),
    (claim3_tag_remap_invariant.2 envAllOk rfl rfl rfl rfl).1⟩

/-- C9: if the operator input stream is exhausted before any `yes` or
`no`, both scripts stop with exit status 1 having issued exactly the
stage-1-to-3 commands: no push and no rollback command is ever issued,
and the resulting repository state still carries the bump commit and the
release tag, with the remote untouched. -/
theorem claim9_eof_no_push_no_rollback (env : Env) (s : GitState)
    (h1 : pyStrip env.statusOutput = "") (h2 : env.bumpOk = true)
    (h3 : env.deleteNpmTagOk = true) (h4 : env.createTagOk = true)
    (h5 : confirm_release env.inputs = none)
    (hv : env.newVersion = versionString (npmBumpMinor s.workManifest))
    (hn : nativeTagName (versionString (npmBumpMinor s.workManifest)) ∉ tagNames s)
    (hr : releaseTagName (versionString (npmBumpMinor s.workManifest)) ∉ tagNames s) :
    mainRun env = (stage3Trace env.newVersion, 1) ∧
      (env.branchQueryOk = true → mainRun2 env = (stage3Trace env.newVersion, 1)) ∧
      Cmd.gitPushBranch ∉ stage3Trace env.newVersion ∧
      (∀ t, Cmd.gitPushTag t ∉ stage3Trace env.newVersion) ∧
      Cmd.gitResetBack ∉ stage3Trace env.newVersion ∧
      (∀ f, Cmd.gitRestore f ∉ stage3Trace env.newVersion) ∧
      runTrace s (stage3Trace env.newVersion) = some (remappedState s) ∧
      (remappedState s).history =
        ⟨s.nextId, npmBumpMinor s.workManifest,
          npmBumpMinor s.workManifest⟩ :: s.history ∧
      (releaseTagName (versionString (npmBumpMinor s.workManifest)), s.nextId) ∈
        (remappedState s).tags ∧
      (remappedState s).remoteHistory = s.remoteHistory ∧
      (remappedState s).remoteTags = s.remoteTags := by
  refine ⟨mainRun_eof env h1 h2 h3 h4 h5,
    fun h0 => mainRun2_eof env h0 h1 h2 h3 h4 h5,
    by simp [stage3Trace], by simp [stage3Trace], by simp [stage3Trace],
    by simp [stage3Trace], ?_, rfl, List.mem_cons_self _ _, rfl, rfl⟩
  rw [hv]
  exact runTrace_stage3 s hn hr

theorem claim9_witness :
    confirm_release ({ envAllOk with inputs := ["hm"] } : Env).inputs = none ∧
      ({ envAllOk with inputs := ["hm"] } : Env).newVersion =
        versionString (npmBumpMinor s130.workManifest) ∧
      mainRun { envAllOk with inputs := ["hm"] } =
        (stage3Trace ({ envAllOk with inputs := ["hm"] } : Env).newVersion, 1) ∧
      runTrace s130
          (stage3Trace ({ envAllOk with inputs := ["hm"] } : Env).newVersion) =
        some (remappedState s130) :=
  ⟨by decide, by decide,
    (claim9_eof_no_push_no_rollback { envAllOk with inputs := ["hm"] } s130
      rfl rfl rfl rfl (by decide) (by decide) (by decide) (by decide)).1,
    (claim9_eof_no_push_no_rollback { envAllOk with inputs := ["hm"] } s130
      rfl rfl rfl rfl (by decide) (by decide) (by decide) (by decide)).2.2.2.2.2.2.1⟩

/-- C4: a run that bumps, remaps and then receives a negative
confirmation rolls back to the pre-run state: the trace contains no push
command, the process exits with status 0, and the resulting repository
state has the original history (branch pointer moved back one commit),
the manifest `version` and the lockfile restored to their committed
pre-run values, the original tag set (in particular no release tag), and
an untouched remote. -/
theorem claim4_rollback_inverse (env : Env) (s : GitState) (c : Commit)
    (rest : List Commit)
    (h1 : pyStrip env.statusOutput = "") (h2 : env.bumpOk = true)
    (h3 : env.deleteNpmTagOk = true) (h4 : env.createTagOk = true)
    (h5 : confirm_release env.inputs = some false)
    (h6 : env.resetOk = true) (h7 : env.deleteReleaseTagOk = true)
    (h8 : env.restoreManifestOk = true) (h9 : env.restoreLockfileOk = true)
    (hh : s.history = c :: rest)
    (hm : s.workManifest = c.manifestVersion)
    (hl : s.workLockfile = c.lockfileVersion)
    (hv : env.newVersion = versionString (npmBumpMinor s.workManifest))
    (hn : nativeTagName (versionString (npmBumpMinor s.workManifest)) ∉ tagNames s)
    (hr : releaseTagName (versionString (npmBumpMinor s.workManifest)) ∉ tagNames s) :
    (mainRun env).2 = 0 ∧
      Cmd.gitPushBranch ∉ (mainRun env).1 ∧
      (∀ t, Cmd.gitPushTag t ∉ (mainRun env).1) ∧
      ∃ s9, runTrace s (mainRun env).1 = some s9 ∧
        s9.workManifest = c.manifestVersion ∧
        s9.workManifest = s.workManifest ∧
        s9.workLockfile = c.lockfileVersion ∧
        s9.workLockfile = s.workLockfile ∧
        s9.history = s.history ∧ s9.tags = s.tags ∧
        releaseTagName env.newVersion ∉ tagNames s9 ∧
        s9.remoteHistory = s.remoteHistory ∧ s9.remoteTags = s.remoteTags := by
  have hroll := rollback_allOk env (releaseTagName env.newVersion) h6 h7 h8 h9
  have htr : mainRun env = (stage3Trace env.newVersion ++
      [Cmd.gitResetBack, Cmd.gitTagDelete (releaseTagName env.newVersion),
        Cmd.gitRestore "package.json", Cmd.gitRestore "package-lock.json"], 0) := by
    rw [mainRun_reject env h1 h2 h3 h4 h5, hroll]
    rfl
  rw [htr]
  refine ⟨rfl, by simp [stage3Trace], by simp [stage3Trace], ?_⟩
  have hh2 : (remappedState s).history =
      ⟨s.nextId, npmBumpMinor s.workManifest, npmBumpMinor s.workManifest⟩ ::
        c :: rest := by
    simp [remappedState, hh]
  have ht2 : releaseTagName (versionString (npmBumpMinor s.workManifest)) ∈
      tagNames (remappedState s) := by
    simp [remappedState, tagNames]
  have hrun : runTrace s (stage3Trace env.newVersion ++
      [Cmd.gitResetBack, Cmd.gitTagDelete (releaseTagName env.newVersion),
        Cmd.gitRestore "package.json", Cmd.gitRestore "package-lock.json"]) =
      some { s with history := c :: rest, workManifest := c.manifestVersion, workLockfile := c.lockfileVersion, nextId := s.nextId + 1 } := by
    rw [hv, runTrace_append, runTrace_stage3 s hn hr]
    show runTrace (remappedState s)
      [Cmd.gitResetBack,
        Cmd.gitTagDelete (releaseTagName (versionString (npmBumpMinor s.workManifest))),
        Cmd.gitRestore "package.json", Cmd.gitRestore "package-lock.json"] = _
    rw [runTrace_rollbackTrace (remappedState s) _ c rest _ hh2 ht2]
    simp [remappedState, List.filter_cons, bne_self_eq_false,
      filter_keep_of_notName s.tags _ hr]
  refine ⟨_, hrun, rfl, by rw [hm], rfl, by rw [hl], hh.symm, rfl, ?_, rfl, rfl⟩
  rw [hv]
  exact hr

theorem claim4_witness :
    confirm_release ({ envAllOk with inputs := ["no"] } : Env).inputs = some false ∧
      (mainRun { envAllOk with inputs := ["no"] }).2 = 0 ∧
      Cmd.gitPushBranch ∉ (mainRun { envAllOk with inputs := ["no"] }).1 ∧
      ∃ s9, runTrace s130 (mainRun { envAllOk with inputs := ["no"] }).1 = some s9 ∧
        s9.workManifest = Version.mk 1 3 0 ∧
        s9.workManifest = s130.workManifest ∧
        s9.workLockfile = Version.mk 1 3 0 ∧
        s9.workLockfile = s130.workLockfile ∧
        s9.history = s130.history ∧ s9.tags = s130.tags ∧
        releaseTagName ({ envAllOk with inputs := ["no"] } : Env).newVersion ∉ tagNames s9 ∧
        s9.remoteHistory = s130.remoteHistory ∧ s9.remoteTags = s130.remoteTags := by
  have h := claim4_rollback_inverse { envAllOk with inputs := ["no"] } s130
    ⟨0, ⟨1, 3, 0⟩, ⟨1, 3, 0⟩⟩ [] rfl rfl rfl rfl (by decide) rfl rfl rfl rfl
    rfl rfl rfl (by decide) (by decide) (by decide)
  exact ⟨by decide, h.1, h.2.1, h.2.2.2⟩

/-- C7 counterexample: from manifest version `1.3.5` the bump operation
produces `1.4.0`, not `1.4.5`: the patch component is not left
unaffected, contradicting the claim's predicted `MAJOR.(MINOR+1).PATCH`
for any starting version with a non-zero patch component. -/
theorem claim7_counterexample :
    Option.map GitState.workManifest (applyNpmVersionMinor s135) =
        some (Version.mk 1 4 0) ∧
      Version.mk 1 4 0 ≠ Version.mk 1 4 5 ∧
      npmBumpMinor (Version.mk 1 3 5) ≠ Version.mk 1 4 5 := by
  refine ⟨by decide, by decide, by decide⟩

/-- C7 (amended): the Version Bumper invokes the external bump tool
configured with the fixed increment level `minor` (third element of the
argument list), and the bump takes any manifest version
`MAJOR.MINOR.PATCH` to `MAJOR.(MINOR+1).0`: the major component is
unchanged, the minor component is incremented, and the patch component
is reset to zero; the bump also adds exactly one commit at the new
version and the native tag `v{new}` on it. -/
theorem claim7_minor_bump_resets_patch (s s2 : GitState)
    (h : applyNpmVersionMinor s = some s2) :
    s2.workManifest.major = s.workManifest.major ∧
      s2.workManifest.minor = s.workManifest.minor + 1 ∧
      s2.workManifest.patch = 0 ∧
      s2.history = ⟨s.nextId, s2.workManifest, s2.workManifest⟩ :: s.history ∧
      s2.tags = (nativeTagName (versionString s2.workManifest), s.nextId) :: s.tags ∧
      bumpCommandArgs.get? 2 = some "minor" := by
  rw [applyNpmVersionMinor] at h
  by_cases hc : nativeTagName (versionString (npmBumpMinor s.workManifest)) ∈ tagNames s
  · rw [if_pos hc] at h
    cases h
  · rw [if_neg hc] at h
    injection h with h2
    subst h2
    exact ⟨rfl, rfl, rfl, rfl, rfl, rfl⟩

theorem claim7_witness :
    applyNpmVersionMinor s135 = some s135bumped ∧
      s135bumped.workManifest.major = s135.workManifest.major ∧
      s135bumped.workManifest.minor = s135.workManifest.minor + 1 ∧
      s135bumped.workManifest.patch = 0 ∧
      s135bumped.history =
        ⟨s135.nextId, s135bumped.workManifest, s135bumped.workManifest⟩ ::
          s135.history ∧
      s135bumped.tags =
        (nativeTagName (versionString s135bumped.workManifest), s135.nextId) ::
          s135.tags ∧
      bumpCommandArgs.get? 2 = some "minor" :=
  ⟨by decide, claim7_minor_bump_resets_patch s135 s135bumped (by decide)⟩

end ReleaseWorkflow
